import Mathlib

/-!
Verification development for a NATS-Streaming client repository.

The repository has two parts:

1. Excluded CRUD handlers over an in-memory book list
   (`src/nats-stream/Go/src/github.com/pkg/handlers/AddBook.go`,
   `GetBook.go`).  These are embedded directly from the Go source.

2. A durable publish/subscribe messaging client (the `stan` client
   core described by the design spec).  Its implementation is not part
   of the source tree: only example callers
   (`src/nats/.../examples/stan-sub/Producer.go`, the WORKS2 producer)
   appear there.  The client core is therefore modelled from the spec,
   as an executable state machine; every such definition carries a
   doc comment starting with `Modelled from the spec:`.
-/

namespace Handlers

/-- Modelled from the spec: the `models.Book` record used by the excluded
CRUD handlers (package `github.com/pkg/models` is not in the source tree).
Only the `ID` field is inspected by the handlers; the remaining JSON
fields are kept opaque in `rest`. -/
structure Book where
  ID : Int
  rest : String
  deriving DecidableEq, Repr

/-- An HTTP response as written by a handler: status code and body. -/
structure HttpResponse where
  status : Nat
  body : String
  deriving DecidableEq, Repr

/-- Numeric value of a list of decimal digit characters, as accumulated by
a base-10 parse. -/
def digitsVal (l : List Char) : Nat :=
  l.foldl (fun a c => a * 10 + (c.toNat - 48)) 0

/-- Does a string have the shape `strconv.Atoi` accepts: an optional sign
followed by a nonempty run of decimal digits? -/
def isGoNumeric (s : String) : Bool :=
  match s.data with
  | [] => false
  | c :: rest =>
    if c = '+' || c = '-' then !rest.isEmpty && rest.all Char.isDigit
    else (c :: rest).all Char.isDigit

/-- Embedding of Go `strconv.Atoi` as used in `GetBook.go` line 13 with its
error ignored: the parsed integer on success, and `0` when the string is
not a well-formed decimal integer (`Atoi` returns `0` together with the
discarded error).  Machine-int range overflow is not modelled; the
handlers only ever store IDs below 100. -/
def atoi (s : String) : Int :=
  match s.data with
  | [] => 0
  | '+' :: rest =>
    if !rest.isEmpty && rest.all Char.isDigit then (digitsVal rest : Int) else 0
  | '-' :: rest =>
    if !rest.isEmpty && rest.all Char.isDigit then -(digitsVal rest : Int) else 0
  | l => if l.all Char.isDigit then (digitsVal l : Int) else 0

/-- The possible outcomes of the `GetBook` handler: it either writes a
JSON-encoded book with status 200, or returns without writing anything
(`noWrite`).  The `notFound` shape is the response the spec's contract
names for a missing resource; it is part of the response vocabulary so
that the contract can be stated against the code. -/
inductive GetBookResponse where
  | ok (b : Book)
  | notFound
  | noWrite
  deriving DecidableEq, Repr

/-- Embedding of the `for ... range mocks.Books` loop of `GetBook.go`
lines 14-21: scan the list in order; at the first book whose `ID` equals
the parsed id, write the 200/JSON response and `break`; if the loop
finishes without a match, nothing is written. -/
def getBookLoop (id : Int) : List Book → GetBookResponse
  | [] => .noWrite
  | b :: rest => if b.ID = id then .ok b else getBookLoop id rest

/-- Embedding of `GetBook` (`GetBook.go` lines 11-22): parse the `id`
route variable with `strconv.Atoi` (error ignored), scan `mocks.Books`
for the first matching `ID`, and return the response together with the
book list the handler leaves behind (the handler only reads the list). -/
def GetBook (idParam : String) (books : List Book) :
    GetBookResponse × List Book :=
  (getBookLoop (atoi idParam) books, books)

/-- Embedding of `AddBooks` (`AddBook.go` lines 13-28).  `body` is the
result of `json.Unmarshal` on the request body: `some b` when the body
decoded into a book, `none` when it did not (the error is ignored and
`book` keeps its zero value).  `r` feeds `rand.Intn(100)`, embedded as
`r % 100`.  The handler overwrites the book's `ID`, appends it to
`mocks.Books`, writes status 201 and encodes the string literal
`created` as the body. -/
def AddBooks (body : Option Book) (r : Nat) (books : List Book) :
    List Book × HttpResponse :=
  let book := body.getD { ID := 0, rest := "" }
  let book := { book with ID := ((r % 100 : Nat) : Int) }
  (books ++ [book], { status := 201, body := "created" })

end Handlers

namespace Stan

/-- Modelled from the spec: a broker-stamped message (§3) — subject,
opaque payload, and the monotonically increasing sequence number the
broker assigns.  (The timestamp field plays no role in any contract
and is omitted.)  The `stan` client implementation itself is absent
from the source tree; only example callers appear. -/
structure Message where
  subject : String
  payload : String
  seq : Nat
  deriving DecidableEq, Repr

/-- Modelled from the spec: the Session status enumeration (§3). -/
inductive SessionStatus where
  | Connecting
  | Open
  | Closing
  | Closed
  deriving DecidableEq, Repr

/-- Modelled from the spec: the Subscription state enumeration (§3). -/
inductive SubState where
  | Active
  | Unsubscribed
  | Closed
  deriving DecidableEq, Repr

/-- Modelled from the spec: publish-level errors (§7). -/
inductive PubError where
  | AckTimeout
  | PayloadTooLarge
  | ErrConnectionClosed
  deriving DecidableEq, Repr

/-- Modelled from the spec: the value a PublishRequest's ackWaiter is
resolved with — either a broker-assigned sequence or a failure (§3). -/
inductive AckOutcome where
  | seq (n : Nat)
  | err (e : PubError)
  deriving DecidableEq, Repr

/-- Modelled from the spec: a Subscription (§3) — subject, optional
durable name, lifecycle state, plus `delivered`: the trace of callback
invocations its Dispatch Loop has performed, in dispatch order.  The
Dispatch Loop is a single logical sequencer (§4.4), so the trace is a
plain list: invocations never overlap.  Queue groups are not modelled
(no claim concerns them). -/
structure Subscription where
  subject : String
  durableName : Option String
  state : SubState
  delivered : List Message
  deriving DecidableEq, Repr

/-- Modelled from the spec: a PublishRequest (§3) with its ackWaiter, a
single-resolution completion handle (`resolution`), together with
`fired`: how many times the caller's `onAck` has been invoked. -/
structure PublishRequest where
  subject : String
  payload : String
  resolution : Option AckOutcome
  fired : Nat
  deriving DecidableEq, Repr

/-- Modelled from the spec: the Session (§3) together with the
broker-side state the client-visible contracts mention — the broker's
per-subject message log (`log`, sequence-stamped), the durable-cursor
records keyed by (durableName, subject) for this client (§6), and a
count of how many times the underlying transport resource has been
released (§4.1). -/
structure Session where
  clusterID : String
  clientID : String
  endpoint : String
  status : SessionStatus
  nextSeq : Nat
  log : List Message
  subs : List Subscription
  reqs : List PublishRequest
  cursors : List ((String × String) × Nat)
  transportReleases : Nat
  deriving DecidableEq, Repr

/-- Look up a durable cursor by (durableName, subject) key. -/
def lookupCursor : List ((String × String) × Nat) → String × String → Option Nat
  | [], _ => none
  | (k, v) :: rest, key => if k = key then some v else lookupCursor rest key

/-- Record a durable cursor position, replacing any existing entry for
the key. -/
def setCursor : List ((String × String) × Nat) → String × String → Nat →
    List ((String × String) × Nat)
  | [], key, v => [(key, v)]
  | (k, w) :: rest, key, v =>
    if k = key then (key, v) :: rest else (k, w) :: setCursor rest key v

/-- Erase the durable cursor entry for a key. -/
def eraseCursor : List ((String × String) × Nat) → String × String →
    List ((String × String) × Nat)
  | [], _ => []
  | (k, w) :: rest, key =>
    if k = key then eraseCursor rest key else (k, w) :: eraseCursor rest key

/-- Modelled from the spec: delivery of a freshly stamped message to one
subscription's Dispatch Loop — an Active subscription on the message's
subject invokes its callback on the message (appending it to the
dispatch trace); any other subscription is untouched (§4.4). -/
def deliverTo (m : Message) (sub : Subscription) : Subscription :=
  if sub.state = .Active ∧ sub.subject = m.subject then
    { sub with delivered := sub.delivered ++ [m] }
  else sub

/-- Modelled from the spec: after a callback invocation completes, the
Dispatch Loop acks the message, advancing the durable cursor if the
subscription is durable (§4.4). -/
def ackCursor (m : Message) (cs : List ((String × String) × Nat))
    (sub : Subscription) : List ((String × String) × Nat) :=
  if sub.state = .Active ∧ sub.subject = m.subject then
    match sub.durableName with
    | some d => setCursor cs (d, m.subject) m.seq
    | none => cs
  else cs

/-- Modelled from the spec: the broker accepts a message — stamps it
with the next sequence number, appends it to the subject log, and every
eligible Dispatch Loop delivers it and acks it (§4.4, §5). -/
def deliverMsg (s : Session) (subj payload : String) : Session :=
  let m : Message := { subject := subj, payload := payload, seq := s.nextSeq }
  { s with
    nextSeq := s.nextSeq + 1
    log := s.log ++ [m]
    subs := s.subs.map (deliverTo m)
    cursors := s.subs.foldl (ackCursor m) s.cursors }

/-- Modelled from the spec: the messages redelivered to a new
subscription at subscribe time — a durable subscription whose cursor is
retained resumes from the last acknowledged position; a fresh durable
or a non-durable subscription starts from "now" (§3, §4.3). -/
def resumeDelivered (s : Session) (subj : String) (durable : Option String) :
    List Message :=
  match durable with
  | none => []
  | some d =>
    match lookupCursor s.cursors (d, subj) with
    | none => []
    | some c => s.log.filter (fun m => decide (m.subject = subj ∧ c < m.seq))

/-- Modelled from the spec: `subscribe` (§4.3) — on an Open session,
register a new Active subscription; a durable subscription with a
retained cursor resumes from it (its Dispatch Loop redelivers and acks
the pending messages); otherwise delivery starts from "now". -/
def subscribe (s : Session) (subj : String) (durable : Option String) : Session :=
  if s.status = .Open then
    let delivered := resumeDelivered s subj durable
    let cursors :=
      match durable with
      | some d => delivered.foldl (fun cs m => setCursor cs (d, subj) m.seq) s.cursors
      | none => s.cursors
    { s with
      subs := s.subs ++
        [{ subject := subj, durableName := durable, state := .Active,
           delivered := delivered }]
      cursors := cursors }
  else s

/-- Modelled from the spec: the effect of `unsubscribe` on the
subscription record — an Active subscription stops delivering; on any
other state the call is a no-op (§4.3, P5). -/
def unsubSub (sub : Subscription) : Subscription :=
  if sub.state = .Active then { sub with state := .Unsubscribed } else sub

/-- Modelled from the spec: `unsubscribe` (§4.3) — stops delivery for
subscription `i`; durable-cursor state is retained. -/
def unsubscribe (s : Session) (i : Nat) : Session :=
  match s.subs[i]? with
  | none => s
  | some sub => { s with subs := s.subs.set i (unsubSub sub) }

/-- Modelled from the spec: `closeDurable` (§4.3) — stops delivery for
subscription `i` and erases its retained durable-cursor state. -/
def closeDurable (s : Session) (i : Nat) : Session :=
  match s.subs[i]? with
  | none => s
  | some sub =>
    if sub.state = .Closed then s
    else
      { s with
        subs := s.subs.set i { sub with state := .Closed }
        cursors :=
          match sub.durableName with
          | some d => eraseCursor s.cursors (d, sub.subject)
          | none => s.cursors }

/-- Modelled from the spec: what `close` does to one in-flight
PublishRequest — an unresolved ackWaiter is resolved with
`ErrConnectionClosed`, invoking `onAck` once; an already-resolved
request is untouched (§4.1, §5). -/
def resolveClosed (r : PublishRequest) : PublishRequest :=
  if r.resolution = none then
    { r with resolution := some (.err .ErrConnectionClosed), fired := r.fired + 1 }
  else r

/-- Modelled from the spec: `close` (§4.1) — idempotent; on a session
not yet Closed it marks every derived subscription Closed, resolves
every in-flight PublishRequest with `ErrConnectionClosed`, and releases
the underlying transport resource (counted by `transportReleases`). -/
def close (s : Session) : Session :=
  if s.status = .Closed then s
  else
    { s with
      status := .Closed
      subs := s.subs.map (fun sub => { sub with state := .Closed })
      reqs := s.reqs.map resolveClosed
      transportReleases := s.transportReleases + 1 }

/-- Modelled from the spec: starting a publish (§4.2) — both
`publishSync` (which then blocks on the ackWaiter) and `publishAsync`
create a PublishRequest with a fresh unresolved ackWaiter; on a session
that is not Open the error is determined immediately and the waiter is
resolved with `ErrConnectionClosed` (`onAck` fires once). -/
def publishReq (s : Session) (subj payload : String) : Session :=
  if s.status = .Open then
    { s with reqs := s.reqs ++
        [{ subject := subj, payload := payload, resolution := none, fired := 0 }] }
  else
    { s with reqs := s.reqs ++
        [{ subject := subj, payload := payload,
           resolution := some (.err .ErrConnectionClosed), fired := 1 }] }

/-- Modelled from the spec: the broker ack for request `i` arrives —
the message is stamped, logged and dispatched, and the request's
ackWaiter is resolved with the assigned sequence, invoking `onAck`
once; a resolved waiter is never resolved again (§3, §4.2). -/
def ackReq (s : Session) (i : Nat) : Session :=
  match s.reqs[i]? with
  | none => s
  | some r =>
    if s.status = .Open ∧ r.resolution = none then
      let s1 := deliverMsg s r.subject r.payload
      { s1 with
        reqs := s.reqs.set i
          { r with resolution := some (.seq s.nextSeq), fired := r.fired + 1 } }
    else s

/-- Modelled from the spec: a successful synchronous publish (§4.2) —
the broker acks within the timeout, so request creation and ack
resolution collapse into one step; on a session that is not Open the
call fails without touching broker state. -/
def publish (s : Session) (subj payload : String) : Session :=
  if s.status = .Open then deliverMsg s subj payload else s

/-- The client-facing operations of the messaging core, as events of
the state machine. -/
inductive Cmd where
  | subscribe (subject : String) (durable : Option String)
  | unsubscribe (i : Nat)
  | closeDurable (i : Nat)
  | publish (subject : String) (payload : String)
  | publishReq (subject : String) (payload : String)
  | ackReq (i : Nat)
  | close
  deriving DecidableEq, Repr

/-- One step of the session state machine. -/
def step (s : Session) : Cmd → Session
  | .subscribe subj d => subscribe s subj d
  | .unsubscribe i => unsubscribe s i
  | .closeDurable i => closeDurable s i
  | .publish subj p => publish s subj p
  | .publishReq subj p => publishReq s subj p
  | .ackReq i => ackReq s i
  | .close => close s

/-- Modelled from the spec: `connect` (§4.1) — a fresh Open session;
broker sequence numbers start at 1 (§8, scenario 1). -/
def connect (clusterID clientID endpoint : String) : Session :=
  { clusterID := clusterID, clientID := clientID, endpoint := endpoint,
    status := .Open, nextSeq := 1, log := [], subs := [], reqs := [],
    cursors := [], transportReleases := 0 }

/-- Run a list of operations from a session state. -/
def run (s : Session) (cmds : List Cmd) : Session :=
  cmds.foldl step s

/-- Sequence sanity for a list of messages: broker sequence numbers are
strictly increasing along the list and all below the broker's next
sequence number. -/
def SeqOk (n : Nat) (l : List Message) : Prop :=
  l.Pairwise (fun a b => a.seq < b.seq) ∧ ∀ m ∈ l, m.seq < n

/-- A request's `onAck` has fired exactly once when its ackWaiter is
resolved, and not at all while it is still pending. -/
def FiredOk (r : PublishRequest) : Prop :=
  r.fired = if r.resolution.isSome then 1 else 0

/-- Invariant of reachable session states: the broker log and every
dispatch trace are in strict sequence order and bounded by `nextSeq`;
every ackWaiter has fired its `onAck` exactly as often as it has been
resolved; a Closed session has no pending ackWaiter; and the transport
resource has been released exactly once on a Closed session and never
otherwise. -/
def Inv (s : Session) : Prop :=
  SeqOk s.nextSeq s.log ∧
  (∀ sub ∈ s.subs, SeqOk s.nextSeq sub.delivered) ∧
  (∀ r ∈ s.reqs, FiredOk r) ∧
  (s.status = .Closed → ∀ r ∈ s.reqs, r.resolution.isSome) ∧
  s.transportReleases = (if s.status = .Closed then 1 else 0)

theorem seqOk_mono {n n' : Nat} {l : List Message} (h : SeqOk n l) (hle : n ≤ n') :
    SeqOk n' l :=
  ⟨h.1, fun m hm => lt_of_lt_of_le (h.2 m hm) hle⟩

theorem seqOk_append {n : Nat} {l : List Message} {m : Message} (h : SeqOk n l)
    (hm : m.seq = n) : SeqOk (n + 1) (l ++ [m]) := by
  constructor
  · rw [List.pairwise_append]
    refine ⟨h.1, List.pairwise_singleton _ _, ?_⟩
    intro a ha b hb
    rw [List.mem_singleton] at hb
    subst hb
    rw [hm]
    exact h.2 a ha
  · intro x hx
    rcases List.mem_append.mp hx with hx | hx
    · exact lt_trans (h.2 x hx) (Nat.lt_succ_self n)
    · rw [List.mem_singleton] at hx
      subst hx
      rw [hm]
      exact Nat.lt_succ_self n

theorem seqOk_filter {n : Nat} {l : List Message} (p : Message → Bool)
    (h : SeqOk n l) : SeqOk n (l.filter p) :=
  ⟨h.1.filter p, fun m hm => h.2 m (List.mem_of_mem_filter hm)⟩

theorem seqOk_nil {n : Nat} : SeqOk n [] :=
  ⟨List.Pairwise.nil, fun m hm => by cases hm⟩

theorem seqOk_resumeDelivered (s : Session) (subj : String) (d : Option String)
    (hlog : SeqOk s.nextSeq s.log) : SeqOk s.nextSeq (resumeDelivered s subj d) := by
  unfold resumeDelivered
  split
  · exact seqOk_nil
  · split
    · exact seqOk_nil
    · exact seqOk_filter _ hlog

theorem deliverTo_delivered (m : Message) (sub : Subscription) :
    (deliverTo m sub).delivered = sub.delivered ∨
    (deliverTo m sub).delivered = sub.delivered ++ [m] := by
  unfold deliverTo
  split
  · right; rfl
  · left; rfl

theorem unsubSub_delivered (sub : Subscription) :
    (unsubSub sub).delivered = sub.delivered := by
  unfold unsubSub
  split <;> rfl

theorem inv_deliverMsg (s : Session) (subj p : String) (h : Inv s) :
    Inv (deliverMsg s subj p) := by
  obtain ⟨hlog, hsubs, hreqs, hclosed, hrel⟩ := h
  refine ⟨?_, ?_, ?_, ?_, ?_⟩
  · exact seqOk_append hlog rfl
  · intro sub' hsub'
    simp only [deliverMsg, List.mem_map] at hsub'
    obtain ⟨sub, hsub, rfl⟩ := hsub'
    show SeqOk (s.nextSeq + 1) (deliverTo _ sub).delivered
    rcases deliverTo_delivered { subject := subj, payload := p, seq := s.nextSeq } sub with
      hd | hd
    · rw [hd]
      exact seqOk_mono (hsubs sub hsub) (Nat.le_succ _)
    · rw [hd]
      exact seqOk_append (hsubs sub hsub) rfl
  · intro r hr
    exact hreqs r hr
  · intro hst r hr
    exact hclosed hst r hr
  · exact hrel

theorem inv_step (s : Session) (c : Cmd) (h : Inv s) : Inv (step s c) := by
  obtain ⟨hlog, hsubs, hreqs, hclosed, hrel⟩ := h
  cases c with
  | subscribe subj d =>
    show Inv (subscribe s subj d)
    unfold subscribe
    by_cases hopen : s.status = SessionStatus.Open
    · rw [if_pos hopen]
      refine ⟨hlog, ?_, hreqs, hclosed, hrel⟩
      intro sub hsub
      simp only [List.mem_append, List.mem_singleton] at hsub
      rcases hsub with hsub | rfl
      · exact hsubs sub hsub
      · exact seqOk_resumeDelivered s subj d hlog
    · rw [if_neg hopen]
      exact ⟨hlog, hsubs, hreqs, hclosed, hrel⟩
  | unsubscribe i =>
    show Inv (unsubscribe s i)
    unfold unsubscribe
    cases hget : s.subs[i]? with
    | none => exact ⟨hlog, hsubs, hreqs, hclosed, hrel⟩
    | some sub =>
      refine ⟨hlog, ?_, hreqs, hclosed, hrel⟩
      intro sub' hsub'
      rcases List.mem_or_eq_of_mem_set hsub' with hmem | rfl
      · exact hsubs sub' hmem
      · rw [show (unsubSub sub).delivered = sub.delivered from unsubSub_delivered sub]
        exact hsubs sub (List.getElem?_mem hget)
  | closeDurable i =>
    show Inv (closeDurable s i)
    unfold closeDurable
    split
    · exact ⟨hlog, hsubs, hreqs, hclosed, hrel⟩
    · rename_i sub hget
      by_cases hcl : sub.state = SubState.Closed
      · rw [if_pos hcl]
        exact ⟨hlog, hsubs, hreqs, hclosed, hrel⟩
      · rw [if_neg hcl]
        refine ⟨hlog, ?_, hreqs, hclosed, hrel⟩
        intro sub' hsub'
        rcases List.mem_or_eq_of_mem_set hsub' with hmem | rfl
        · exact hsubs sub' hmem
        · exact hsubs sub (List.getElem?_mem hget)
  | publish subj p =>
    show Inv (publish s subj p)
    unfold publish
    split
    · exact inv_deliverMsg s subj p ⟨hlog, hsubs, hreqs, hclosed, hrel⟩
    · exact ⟨hlog, hsubs, hreqs, hclosed, hrel⟩
  | publishReq subj p =>
    show Inv (publishReq s subj p)
    unfold publishReq
    by_cases hopen : s.status = SessionStatus.Open
    · rw [if_pos hopen]
      refine ⟨hlog, hsubs, ?_, ?_, hrel⟩
      · intro r hr
        simp only [List.mem_append, List.mem_singleton] at hr
        rcases hr with hr | rfl
        · exact hreqs r hr
        · rfl
      · intro hst
        have hst' : s.status = SessionStatus.Closed := hst
        exact SessionStatus.noConfusion (hopen.symm.trans hst')
    · rw [if_neg hopen]
      refine ⟨hlog, hsubs, ?_, ?_, hrel⟩
      · intro r hr
        simp only [List.mem_append, List.mem_singleton] at hr
        rcases hr with hr | rfl
        · exact hreqs r hr
        · rfl
      · intro hst r hr
        simp only [List.mem_append, List.mem_singleton] at hr
        rcases hr with hr | rfl
        · exact hclosed hst r hr
        · rfl
  | ackReq i =>
    show Inv (ackReq s i)
    unfold ackReq
    split
    · exact ⟨hlog, hsubs, hreqs, hclosed, hrel⟩
    · rename_i r hget
      by_cases hcond : s.status = SessionStatus.Open ∧ r.resolution = none
      · rw [if_pos hcond]
        obtain ⟨hopen, hpend⟩ := hcond
        have hd := inv_deliverMsg s r.subject r.payload ⟨hlog, hsubs, hreqs, hclosed, hrel⟩
        obtain ⟨hlog', hsubs', _, _, _⟩ := hd
        refine ⟨hlog', hsubs', ?_, ?_, ?_⟩
        · intro r' hr'
          rcases List.mem_or_eq_of_mem_set hr' with hmem | rfl
          · exact hreqs r' hmem
          · show FiredOk _
            have hf : r.fired = 0 := by
              have := hreqs r (List.getElem?_mem hget)
              rw [FiredOk, hpend] at this
              simpa using this
            rw [FiredOk]
            simp [hf]
        · intro hst
          have hst' : s.status = SessionStatus.Closed := hst
          exact SessionStatus.noConfusion (hopen.symm.trans hst')
        · show s.transportReleases = _
          have hne : s.status ≠ SessionStatus.Closed := by
            rw [hopen]
            intro hc
            cases hc
          rw [if_neg hne] at hrel
          have hgoal : (deliverMsg s r.subject r.payload).status = s.status := rfl
          rw [hgoal, if_neg hne]
          exact hrel
      · rw [if_neg hcond]
        exact ⟨hlog, hsubs, hreqs, hclosed, hrel⟩
  | close =>
    show Inv (close s)
    unfold close
    by_cases hnc : s.status = SessionStatus.Closed
    · rw [if_pos hnc]
      exact ⟨hlog, hsubs, hreqs, hclosed, hrel⟩
    · rw [if_neg hnc]
      refine ⟨hlog, ?_, ?_, ?_, ?_⟩
      · intro sub' hsub'
        simp only [List.mem_map] at hsub'
        obtain ⟨sub, hsub, rfl⟩ := hsub'
        exact hsubs sub hsub
      · intro r' hr'
        simp only [List.mem_map] at hr'
        obtain ⟨r, hr, rfl⟩ := hr'
        show FiredOk (resolveClosed r)
        unfold resolveClosed
        split
        · rename_i hnone
          have hf : r.fired = 0 := by
            have := hreqs r hr
            rw [FiredOk, hnone] at this
            simpa using this
          rw [FiredOk]
          simp [hf]
        · exact hreqs r hr
      · intro _ r' hr'
        simp only [List.mem_map] at hr'
        obtain ⟨r, hr, rfl⟩ := hr'
        show (resolveClosed r).resolution.isSome
        unfold resolveClosed
        split
        · rfl
        · rename_i hns
          cases hres : r.resolution with
          | none => exact absurd hres hns
          | some a => rfl
      · rw [if_neg hnc] at hrel
        show s.transportReleases + 1 = _
        rw [if_pos rfl, hrel]

theorem inv_run (s : Session) (cmds : List Cmd) (h : Inv s) : Inv (run s cmds) := by
  induction cmds generalizing s with
  | nil => exact h
  | cons c rest ih => exact ih (step s c) (inv_step s c h)

theorem inv_connect (clusterID clientID endpoint : String) :
    Inv (connect clusterID clientID endpoint) := by
  refine ⟨⟨List.Pairwise.nil, ?_⟩, ?_, ?_, ?_, rfl⟩
  · intro m hm; cases hm
  · intro sub hsub; cases hsub
  · intro r hr; cases hr
  · intro _ r hr; cases hr

theorem close_status (s : Session) : (close s).status = SessionStatus.Closed := by
  unfold close
  by_cases h : s.status = SessionStatus.Closed
  · rw [if_pos h]
    exact h
  · rw [if_neg h]

theorem close_of_closed (s : Session) (h : s.status = SessionStatus.Closed) :
    close s = s := by
  unfold close
  rw [if_pos h]

theorem unsubSub_idem (sub : Subscription) : unsubSub (unsubSub sub) = unsubSub sub := by
  obtain ⟨subj, d, st, del⟩ := sub
  cases st <;> rfl

theorem resolveClosed_isSome (r : PublishRequest) :
    (resolveClosed r).resolution.isSome := by
  unfold resolveClosed
  by_cases h : r.resolution = none
  · rw [if_pos h]
    rfl
  · rw [if_neg h]
    cases hres : r.resolution with
    | none => exact absurd hres h
    | some a => rfl

theorem lookupCursor_eraseCursor (cs : List ((String × String) × Nat))
    (key : String × String) : lookupCursor (eraseCursor cs key) key = none := by
  induction cs with
  | nil => rfl
  | cons kv rest ih =>
    obtain ⟨k, v⟩ := kv
    unfold eraseCursor
    by_cases h : k = key
    · rw [if_pos h]
      exact ih
    · rw [if_neg h]
      unfold lookupCursor
      rw [if_neg h]
      exact ih

end Stan

open Stan

/-- C1: on an Open session, subscribing to a subject with no durable name
and then publishing a single message to that subject results in the new
subscription's callback being invoked exactly once, with that message's
payload (its dispatch trace is exactly the one message). -/
theorem C1_subscribe_publish_once (s : Session) (subj p : String)
    (h : s.status = SessionStatus.Open) :
    (step (step s (.subscribe subj none)) (.publish subj p)).subs[s.subs.length]? =
      some { subject := subj, durableName := none, state := .Active,
             delivered := [{ subject := subj, payload := p, seq := s.nextSeq }] } := by
  show (Stan.publish (Stan.subscribe s subj none) subj p).subs[s.subs.length]? = _
  unfold Stan.subscribe
  rw [if_pos h]
  unfold Stan.publish
  rw [if_pos (show _ = SessionStatus.Open from h)]
  unfold deliverMsg
  show ((s.subs ++ [_]).map _)[s.subs.length]? = _
  rw [List.getElem?_map, List.getElem?_concat_length]
  show some (deliverTo _ _) = _
  unfold deliverTo
  rw [if_pos ⟨rfl, rfl⟩]
  rfl

/-- Witness for C1 at the concrete scenario of the spec and the
stan-sub example: fresh connection, subscribe to foo, publish the
payload Hello World. -/
theorem C1_witness :
    (step (step (connect "test-cluster" "wb-10-client" "nats://127.0.0.1:4222")
        (.subscribe "foo" none)) (.publish "foo" "Hello World")).subs[0]? =
      some { subject := "foo", durableName := none, state := .Active,
             delivered := [{ subject := "foo", payload := "Hello World", seq := 1 }] } :=
  C1_subscribe_publish_once
    (connect "test-cluster" "wb-10-client" "nats://127.0.0.1:4222") "foo" "Hello World" rfl

/-- C2: on any reachable session, every subscription's dispatch trace is
in strictly increasing — hence non-decreasing — broker-assigned sequence
order.  Invocations are one at a time by construction: each Dispatch
Loop is a single logical sequencer, so its trace is a plain list. -/
theorem C2_dispatch_in_seq_order (clusterID clientID endpoint : String)
    (cmds : List Cmd) (sub : Stan.Subscription)
    (hsub : sub ∈ (run (connect clusterID clientID endpoint) cmds).subs) :
    sub.delivered.Pairwise (fun a b => a.seq < b.seq) ∧
    sub.delivered.Pairwise (fun a b => a.seq ≤ b.seq) := by
  have h := ((inv_run _ cmds (inv_connect clusterID clientID endpoint)).2.1 sub hsub).1
  exact ⟨h, h.imp le_of_lt⟩

/-- Witness for C2: two publishes on one subject observed by one
subscription, in sequence order. -/
theorem C2_witness :
    ({ subject := "foo", durableName := none, state := .Active,
       delivered := [{ subject := "foo", payload := "a", seq := 1 },
                     { subject := "foo", payload := "b", seq := 2 }] } : Stan.Subscription) ∈
      (run (connect "tc" "ci" "ep")
        [.subscribe "foo" none, .publish "foo" "a", .publish "foo" "b"]).subs ∧
    ([{ subject := "foo", payload := "a", seq := 1 },
      { subject := "foo", payload := "b", seq := 2 }] : List Message).Pairwise
        (fun a b => a.seq < b.seq) :=
  ⟨by decide,
   (C2_dispatch_in_seq_order "tc" "ci" "ep"
     [.subscribe "foo" none, .publish "foo" "a", .publish "foo" "b"]
     { subject := "foo", durableName := none, state := .Active,
       delivered := [{ subject := "foo", payload := "a", seq := 1 },
                     { subject := "foo", payload := "b", seq := 2 }] } (by decide)).1⟩

/-- C3: on any reachable session, every PublishRequest's `onAck` has
been invoked exactly once if its ackWaiter is resolved (with a sequence
or an error) and not at all while it is pending; and once the session is
Closed no ackWaiter is left pending, so every request's `onAck` has
fired exactly once.  The model has no timeouts, so every request is one
that does not time out. -/
theorem C3_onAck_exactly_once (clusterID clientID endpoint : String)
    (cmds : List Cmd) (r : PublishRequest)
    (hr : r ∈ (run (connect clusterID clientID endpoint) cmds).reqs) :
    r.fired = (if r.resolution.isSome then 1 else 0) ∧
    ((run (connect clusterID clientID endpoint) cmds).status = SessionStatus.Closed →
      r.resolution.isSome) := by
  have hinv := inv_run _ cmds (inv_connect clusterID clientID endpoint)
  exact ⟨hinv.2.2.1 r hr, fun hc => hinv.2.2.2.1 hc r hr⟩

/-- Witness for C3: an acked request has fired its callback exactly once. -/
theorem C3_witness :
    ({ subject := "foo", payload := "x", resolution := some (.seq 1), fired := 1 } :
        PublishRequest) ∈
      (run (connect "tc" "ci" "ep") [.publishReq "foo" "x", .ackReq 0]).reqs ∧
    (1 : Nat) = (if (some (AckOutcome.seq 1)).isSome then 1 else 0) :=
  ⟨by decide,
   (C3_onAck_exactly_once "tc" "ci" "ep" [.publishReq "foo" "x", .ackReq 0]
     { subject := "foo", payload := "x", resolution := some (.seq 1), fired := 1 }
     (by decide)).1⟩

/-- C4: `close` is idempotent — closing an already-closed session is a
no-op, leaving the entire state unchanged — and on every reachable
session the underlying transport resource has been released exactly
once if the session is Closed and never otherwise (so repeated close
calls release it exactly once). -/
theorem C4_close_idempotent_release_once :
    (∀ s : Session, step (step s .close) .close = step s .close) ∧
    (∀ clusterID clientID endpoint : String, ∀ cmds : List Cmd,
      (run (connect clusterID clientID endpoint) cmds).transportReleases =
        if (run (connect clusterID clientID endpoint) cmds).status = SessionStatus.Closed
        then 1 else 0) := by
  constructor
  · intro s
    show Stan.close (Stan.close s) = Stan.close s
    exact close_of_closed (Stan.close s) (close_status s)
  · intro clusterID clientID endpoint cmds
    exact (inv_run _ cmds (inv_connect clusterID clientID endpoint)).2.2.2.2

/-- C5: `unsubscribe` is idempotent — the second call on the same
subscription is a no-op, leaving the entire session state unchanged. -/
theorem C5_unsubscribe_idempotent (s : Session) (i : Nat) :
    step (step s (.unsubscribe i)) (.unsubscribe i) = step s (.unsubscribe i) := by
  show unsubscribe (unsubscribe s i) i = unsubscribe s i
  cases hget : s.subs[i]? with
  | none =>
    simp only [unsubscribe, hget]
  | some sub =>
    have hget2 : (s.subs.set i (unsubSub sub))[i]? = some (unsubSub sub) := by
      rw [List.getElem?_set_self', hget]
      rfl
    simp only [unsubscribe, hget, hget2, List.set_set, unsubSub_idem]

/-- C7: closing a reachable session resolves every in-flight publish
wait with `ErrConnectionClosed` (its `onAck`/blocked caller is released
exactly once, never left hanging), and after the close no request's
ackWaiter is pending. -/
theorem C7_close_cancels_inflight (clusterID clientID endpoint : String)
    (cmds : List Cmd) (i : Nat) (r r2 : PublishRequest)
    (hget : (run (connect clusterID clientID endpoint) cmds).reqs[i]? = some r)
    (hpend : r.resolution = none)
    (hr2 : r2 ∈ (step (run (connect clusterID clientID endpoint) cmds) .close).reqs) :
    (step (run (connect clusterID clientID endpoint) cmds) .close).reqs[i]? =
      some { r with resolution := some (.err .ErrConnectionClosed),
                    fired := r.fired + 1 } ∧
    r2.resolution.isSome := by
  have hinv := inv_run _ cmds (inv_connect clusterID clientID endpoint)
  have hne : (run (connect clusterID clientID endpoint) cmds).status ≠
      SessionStatus.Closed := by
    intro hc
    have := hinv.2.2.2.1 hc r (List.getElem?_mem hget)
    rw [hpend] at this
    cases this
  show (Stan.close _).reqs[i]? = _ ∧ _
  unfold Stan.close
  rw [if_neg hne]
  constructor
  · show ((run (connect clusterID clientID endpoint) cmds).reqs.map resolveClosed)[i]?
        = _
    rw [List.getElem?_map, hget]
    show some (resolveClosed r) = _
    unfold resolveClosed
    rw [if_pos hpend]
  · show r2.resolution.isSome
    have hr2' : r2 ∈ (Stan.close (run (connect clusterID clientID endpoint) cmds)).reqs :=
      hr2
    unfold Stan.close at hr2'
    rw [if_neg hne] at hr2'
    obtain ⟨a, _, rfl⟩ := List.mem_map.mp hr2'
    exact resolveClosed_isSome a

/-- Witness for C7: closing while one publish request is in flight
resolves exactly that request with ErrConnectionClosed. -/
theorem C7_witness :
    (step (run (connect "tc" "ci" "ep") [.publishReq "foo" "x"]) .close).reqs[0]? =
      some { subject := "foo", payload := "x",
             resolution := some (.err .ErrConnectionClosed), fired := 0 + 1 } ∧
    (({ subject := "foo", payload := "x",
        resolution := some (.err .ErrConnectionClosed), fired := 1 } :
          PublishRequest)).resolution.isSome :=
  C7_close_cancels_inflight "tc" "ci" "ep" [.publishReq "foo" "x"] 0
    { subject := "foo", payload := "x", resolution := none, fired := 0 }
    { subject := "foo", payload := "x",
      resolution := some (.err .ErrConnectionClosed), fired := 1 }
    (by decide) rfl (by decide)

theorem deliverTo_not_active (m : Message) (sub : Stan.Subscription)
    (h : sub.state ≠ SubState.Active) : deliverTo m sub = sub := by
  unfold deliverTo
  rw [if_neg (fun hh => h hh.1)]

theorem getElem?_set_concat {α : Type} (l : List α) (i : Nat) (a b : α) :
    ((l.set i a) ++ [b])[l.length]? = some b := by
  rw [← List.length_set l i a]
  exact List.getElem?_concat_length _ _

theorem resumeDelivered_cursor (s : Session) (subj dn : String) (c : Nat)
    (h : lookupCursor s.cursors (dn, subj) = some c) :
    resumeDelivered s subj (some dn) =
      s.log.filter (fun m => decide (m.subject = subj ∧ c < m.seq)) := by
  simp [resumeDelivered, h]

theorem resumeDelivered_fresh (s : Session) (subj dn : String)
    (h : lookupCursor s.cursors (dn, subj) = none) :
    resumeDelivered s subj (some dn) = [] := by
  simp [resumeDelivered, h]

/-- C6: for a live durable subscription, `unsubscribe` and `closeDurable`
both stop delivery (the subscription leaves the Active state and a
subsequent publish leaves its dispatch trace unchanged), and they leave
the session's status, broker log, sequence counter, requests and
transport state identical; they differ only in the broker-held durable
cursor: `unsubscribe` retains it, so resubscribing with the same
(subject, durableName) resumes from the retained position, while
`closeDurable` erases it, so resubscribing starts fresh. -/
theorem C6_unsubscribe_vs_closeDurable (s : Session) (i : Nat)
    (sub : Stan.Subscription) (d q p : String) (cpos : Nat)
    (hget : s.subs[i]? = some sub)
    (hd : sub.durableName = some d)
    (hact : sub.state = SubState.Active)
    (hopen : s.status = SessionStatus.Open)
    (hcur : lookupCursor s.cursors (d, sub.subject) = some cpos) :
    ((step s (.unsubscribe i)).subs[i]?).map Subscription.state
      = some SubState.Unsubscribed ∧
    ((step s (.closeDurable i)).subs[i]?).map Subscription.state
      = some SubState.Closed ∧
    ((step (step s (.unsubscribe i)) (.publish q p)).subs[i]?).map
        Subscription.delivered = some sub.delivered ∧
    ((step (step s (.closeDurable i)) (.publish q p)).subs[i]?).map
        Subscription.delivered = some sub.delivered ∧
    (step s (.unsubscribe i)).cursors = s.cursors ∧
    (step s (.closeDurable i)).cursors = eraseCursor s.cursors (d, sub.subject) ∧
    (step s (.unsubscribe i)).status = (step s (.closeDurable i)).status ∧
    (step s (.unsubscribe i)).nextSeq = (step s (.closeDurable i)).nextSeq ∧
    (step s (.unsubscribe i)).log = (step s (.closeDurable i)).log ∧
    (step s (.unsubscribe i)).reqs = (step s (.closeDurable i)).reqs ∧
    (step s (.unsubscribe i)).transportReleases
      = (step s (.closeDurable i)).transportReleases ∧
    ((step (step s (.unsubscribe i)) (.subscribe sub.subject (some d))).subs[s.subs.length]?).map
        Subscription.delivered
      = some (s.log.filter (fun m => decide (m.subject = sub.subject ∧ cpos < m.seq))) ∧
    ((step (step s (.closeDurable i)) (.subscribe sub.subject (some d))).subs[s.subs.length]?).map
        Subscription.delivered = some [] := by
  have hununsub : unsubSub sub = { sub with state := SubState.Unsubscribed } := by
    unfold unsubSub
    rw [if_pos hact]
  have hu : step s (.unsubscribe i) =
      { s with subs := s.subs.set i { sub with state := SubState.Unsubscribed } } := by
    show Stan.unsubscribe s i = _
    simp only [Stan.unsubscribe, hget, hununsub]
  have hnc : ¬ sub.state = SubState.Closed := by
    rw [hact]
    intro hh
    cases hh
  have hc : step s (.closeDurable i) =
      { s with subs := s.subs.set i { sub with state := SubState.Closed },
               cursors := eraseCursor s.cursors (d, sub.subject) } := by
    show Stan.closeDurable s i = _
    simp only [Stan.closeDurable, hget, hd]
    rw [if_neg hnc]
  refine ⟨?_, ?_, ?_, ?_, ?_, ?_, ?_, ?_, ?_, ?_, ?_, ?_, ?_⟩
  · rw [hu]
    show ((s.subs.set i _)[i]?).map _ = _
    rw [List.getElem?_set_self', hget]
    rfl
  · rw [hc]
    show ((s.subs.set i _)[i]?).map _ = _
    rw [List.getElem?_set_self', hget]
    rfl
  · rw [hu]
    show (Stan.publish _ q p).subs[i]?.map _ = _
    unfold Stan.publish
    rw [if_pos (show _ = SessionStatus.Open from hopen)]
    unfold deliverMsg
    show ((s.subs.set i _).map _)[i]?.map _ = _
    rw [List.getElem?_map, List.getElem?_set_self', hget]
    show some ((deliverTo _ { sub with state := SubState.Unsubscribed }).delivered) = _
    rw [deliverTo_not_active _ _ (fun hh => SubState.noConfusion hh)]
  · rw [hc]
    show (Stan.publish _ q p).subs[i]?.map _ = _
    unfold Stan.publish
    rw [if_pos (show _ = SessionStatus.Open from hopen)]
    unfold deliverMsg
    show ((s.subs.set i _).map _)[i]?.map _ = _
    rw [List.getElem?_map, List.getElem?_set_self', hget]
    show some ((deliverTo _ { sub with state := SubState.Closed }).delivered) = _
    rw [deliverTo_not_active _ _ (fun hh => SubState.noConfusion hh)]
  · rw [hu]
  · rw [hc]
  · rw [hu, hc]
  · rw [hu, hc]
  · rw [hu, hc]
  · rw [hu, hc]
  · rw [hu, hc]
  · rw [hu]
    show (Stan.subscribe _ sub.subject (some d)).subs[s.subs.length]?.map _ = _
    unfold Stan.subscribe
    rw [if_pos (show _ = SessionStatus.Open from hopen)]
    show ((s.subs.set i _ ++ [_])[s.subs.length]?).map _ = _
    rw [getElem?_set_concat]
    show some (resumeDelivered _ sub.subject (some d)) = _
    rw [resumeDelivered_cursor
      { s with subs := s.subs.set i { sub with state := SubState.Unsubscribed } }
      sub.subject d cpos hcur]
  · rw [hc]
    show (Stan.subscribe _ sub.subject (some d)).subs[s.subs.length]?.map _ = _
    unfold Stan.subscribe
    rw [if_pos (show _ = SessionStatus.Open from hopen)]
    show ((s.subs.set i _ ++ [_])[s.subs.length]?).map _ = _
    rw [getElem?_set_concat]
    show some (resumeDelivered _ sub.subject (some d)) = _
    rw [resumeDelivered_fresh
      { s with subs := s.subs.set i { sub with state := SubState.Closed },
               cursors := eraseCursor s.cursors (d, sub.subject) }
      sub.subject d (lookupCursor_eraseCursor s.cursors (d, sub.subject))]

/-- Witness for C6 at a concrete scenario: a durable subscription on
subject orders with durable name worker-1 that has received and acked
one message; after unsubscribe it is in the Unsubscribed state. -/
theorem C6_witness :
    ((step (run (connect "tc" "ci" "ep")
        [.subscribe "orders" (some "worker-1"), .publish "orders" "m1"])
      (.unsubscribe 0)).subs[0]?).map Subscription.state
      = some SubState.Unsubscribed :=
  (C6_unsubscribe_vs_closeDurable
    (run (connect "tc" "ci" "ep")
      [.subscribe "orders" (some "worker-1"), .publish "orders" "m1"])
    0
    { subject := "orders", durableName := some "worker-1", state := .Active,
      delivered := [{ subject := "orders", payload := "m1", seq := 1 }] }
    "worker-1" "orders" "m2" 1
    (by decide) rfl rfl (by decide) (by decide)).1

theorem getBookLoop_eq_find (id : Int) (books : List Handlers.Book) :
    Handlers.getBookLoop id books =
      (match books.find? (fun b => b.ID == id) with
        | some b => Handlers.GetBookResponse.ok b
        | none => Handlers.GetBookResponse.noWrite) := by
  induction books with
  | nil => rfl
  | cons b rest ih =>
    unfold Handlers.getBookLoop
    rw [List.find?_cons]
    by_cases h : b.ID = id
    · rw [if_pos h]
      have hb : (b.ID == id) = true := beq_iff_eq.mpr h
      rw [hb]
    · rw [if_neg h]
      have hb : (b.ID == id) = false := by
        rw [beq_eq_false_iff_ne]
        exact h
      rw [hb]
      exact ih

theorem getBookLoop_noMatch (id : Int) (books : List Handlers.Book)
    (hnone : ∀ b ∈ books, b.ID ≠ id) :
    Handlers.getBookLoop id books = Handlers.GetBookResponse.noWrite := by
  induction books with
  | nil => rfl
  | cons b rest ih =>
    unfold Handlers.getBookLoop
    rw [if_neg (hnone b (List.mem_cons_self b rest))]
    exact ih (fun b' hb' => hnone b' (List.mem_cons_of_mem b hb'))

theorem atoi_of_not_numeric (s : String) (h : Handlers.isGoNumeric s = false) :
    Handlers.atoi s = 0 := by
  unfold Handlers.atoi
  unfold Handlers.isGoNumeric at h
  cases hd : s.data with
  | nil => simp only [hd]
  | cons c rest =>
    simp only [hd] at h ⊢
    by_cases hp : c = '+'
    · subst hp
      simp only [decide_True, Bool.true_or, if_true] at h
      simp [h]
    · by_cases hm : c = '-'
      · subst hm
        simp only [decide_True, Bool.or_true, if_true] at h
        simp [hp, h]
      · rw [if_neg (by simp [hp, hm])] at h
        simp [hp, hm, h]

/-- C9: every AddBooks request appends exactly one book to the shared
list (the result is the input list plus one book, so the length grows by
exactly 1), the stored book's ID is the handler-chosen value `r % 100`
(overwriting any client-supplied ID) which lies in [0, 100), and the
response is status 201 with body `created` — also when the request body
was not valid JSON (`body = none`). -/
theorem C9_addBooks_appends_one (body : Option Handlers.Book) (r : Nat)
    (books : List Handlers.Book) :
    (Handlers.AddBooks body r books).1 =
      books ++ [{ ID := ((r % 100 : Nat) : Int),
                  rest := (body.getD { ID := 0, rest := "" }).rest }] ∧
    (Handlers.AddBooks body r books).1.length = books.length + 1 ∧
    ((0 : Int) ≤ ((r % 100 : Nat) : Int) ∧ ((r % 100 : Nat) : Int) < 100) ∧
    (Handlers.AddBooks body r books).2 = { status := 201, body := "created" } := by
  refine ⟨rfl, ?_, ⟨Int.ofNat_nonneg _, ?_⟩, rfl⟩
  · show (books ++ [_]).length = _
    simp
  · exact_mod_cast Nat.mod_lt r (by norm_num)

/-- C10: GetBook parses the id with Atoi (a non-numeric id parameter
yields 0), JSON-encodes at most one book — exactly the first element of
the collection, in list order, whose ID equals the parsed id, stopping
at the first match — and never modifies the collection. -/
theorem C10_getBook_first_match (idParam : String) (books : List Handlers.Book) :
    (Handlers.GetBook idParam books).2 = books ∧
    (Handlers.GetBook idParam books).1 =
      (match books.find? (fun b => b.ID == Handlers.atoi idParam) with
        | some b => Handlers.GetBookResponse.ok b
        | none => Handlers.GetBookResponse.noWrite) ∧
    (Handlers.isGoNumeric idParam = false → Handlers.atoi idParam = 0) :=
  ⟨rfl, getBookLoop_eq_find _ _, fun h => atoi_of_not_numeric _ h⟩

/-- Witness for C10: a non-numeric id parameter is treated as id 0 and
the collection is returned unchanged. -/
theorem C10_witness :
    (Handlers.GetBook "x" [{ ID := 1, rest := "a" }]).2 = [{ ID := 1, rest := "a" }] ∧
    Handlers.atoi "x" = 0 :=
  ⟨(C10_getBook_first_match "x" [{ ID := 1, rest := "a" }]).1,
   (C10_getBook_first_match "x" [{ ID := 1, rest := "a" }]).2.2 (by decide)⟩

/-- C8 counterexample: a GetBook request whose id (1) matches no book in
the collection (empty) does not return a not-found response — the
handler returns without writing anything, refuting the claim at this
input. -/
theorem C8_counterexample :
    ¬ ((∀ b ∈ ([] : List Handlers.Book), b.ID ≠ Handlers.atoi "1") →
        (Handlers.GetBook "1" ([] : List Handlers.Book)).1
          = Handlers.GetBookResponse.notFound) := by
  decide

/-- C8 amended: every AddBooks request is answered with the 201 created
response, and GetBook reads the collection without modifying it; but a
GetBook request whose id matches no book in the collection writes no
response at all (no body, no explicit status) rather than a not-found
response. -/
theorem C8_amended_responses (idParam : String) (books : List Handlers.Book)
    (body : Option Handlers.Book) (r : Nat)
    (hnone : ∀ b ∈ books, b.ID ≠ Handlers.atoi idParam) :
    (Handlers.GetBook idParam books).1 = Handlers.GetBookResponse.noWrite ∧
    (Handlers.GetBook idParam books).2 = books ∧
    (Handlers.AddBooks body r books).2 = { status := 201, body := "created" } :=
  ⟨getBookLoop_noMatch _ _ hnone, rfl, rfl⟩

/-- Witness for the amended C8: with an empty collection and id 1, the
GetBook response is empty and AddBooks still answers 201 created. -/
theorem C8_witness :
    (Handlers.GetBook "1" ([] : List Handlers.Book)).1
        = Handlers.GetBookResponse.noWrite ∧
    (Handlers.GetBook "1" ([] : List Handlers.Book)).2 = [] ∧
    (Handlers.AddBooks none 0 ([] : List Handlers.Book)).2
        = { status := 201, body := "created" } :=
  C8_amended_responses "1" [] none 0 (by decide)
